import Mathlib

/-!
Shallow embedding of `src/modules/redbutton_badge.py`: the on-chain
value-accumulation and probabilistic-claim engine ("red button badge" quest).
Each definition mirrors one constant or function of the source file; theorems
settle the specification claims about them.
-/

namespace RedButton

/-! ## Configuration constants (source lines 36-69) -/

/-- `CHAIN_ID = 1868` (source line 37). -/
def CHAIN_ID : ℕ := 1868

/-- `TARGET_VALUE_RBTN = 1300` (source line 47): fixed accumulation target in RBTN. -/
def TARGET_VALUE_RBTN : ℕ := 1300

/-- `GACHA_NOOB = 0` (source line 55): draw-mode index for the common draw. -/
def GACHA_NOOB : ℕ := 0

/-- `GACHA_OG = 3` (source line 56): draw-mode index for the jackpot draw. -/
def GACHA_OG : ℕ := 3

/-- `RARITY_VALUES` dict (source lines 59-66) together with the
`RARITY_VALUES.get(rarity_index, 0)` access pattern of source line 853:
any index outside the six listed keys yields the dict-get default `0`. -/
def RARITY_VALUES : ℕ → ℕ
  | 0 => 15
  | 1 => 80
  | 2 => 800
  | 3 => 3000
  | 4 => 18000
  | 5 => 400000
  | _ => 0

/-- `RARITY_UNIQUE = 3` (source line 69): the jackpot rarity index. -/
def RARITY_UNIQUE : ℕ := 3

/-- `Web3.to_wei(1, "gwei")`: one gwei in wei. -/
def oneGwei : ℤ := 1000000000

/-- `Web3.to_wei(1, "ether")`: wei per whole token unit. -/
def weiPerEther : ℕ := 1000000000000000000

/-- RBTN token contract address, `RBTN_TOKEN_ADDRESS` (source line 43). -/
def RBTN_TOKEN_ADDRESS : String := "0xee28813b8292d47c81e8e6f51c1f1358573ed615"

/-! ## Fee model (`send_transaction`, source lines 361-436)

`send_transaction` reads `latest.get("baseFeePerGas")`; when it is absent the
transaction carries the legacy `gasPrice`; otherwise it reads the chain's
`max_priority_fee` (an exception during that read is modelled as `none` and
yields 1 gwei), replaces a non-positive value by 1 gwei, and sets
`maxFeePerGas = base_fee * 2 + priority_fee`.  The identical block appears in
`estimate_gas_cost` (lines 337-358) and `swap_rbtn_to_eth` (lines 740-751). -/

/-- Fee parameters attached to a transaction: legacy `gasPrice` or dynamic
`maxFeePerGas` / `maxPriorityFeePerGas`. -/
inductive FeeParams where
  | legacy (gasPrice : ℤ)
  | dynamic (maxFeePerGas maxPriorityFeePerGas : ℤ)
deriving DecidableEq, Repr

/-- Priority-fee selection (source lines 409-415): the reported
`max_priority_fee` is used as-is unless the read raised (`none`) or the value
is `<= 0`, in which case 1 gwei is used. -/
def selectPriorityFee (reported : Option ℤ) : ℤ :=
  match reported with
  | none => oneGwei
  | some p => if p ≤ 0 then oneGwei else p

/-- Fee parameters chosen by `send_transaction` (source lines 398-427):
legacy gas price when the latest block has no `baseFeePerGas`, otherwise
dynamic fees with `max_fee = base_fee * 2 + priority_fee`. -/
def computeFeeParams (baseFee : Option ℤ) (gasPrice : ℤ) (reported : Option ℤ) : FeeParams :=
  match baseFee with
  | none => .legacy gasPrice
  | some b =>
      let p := selectPriorityFee reported
      .dynamic (b * 2 + p) p

/-- The fee rule exactly as the claim words it (spec section 4.2):
`maxPriorityFeePerGas = max(chain-reported priority fee, 1 gwei)` when a base
fee is exposed, legacy gas price otherwise.  Stated for comparison with
`computeFeeParams`; an unreadable priority fee keeps the source's 1 gwei. -/
def claimFeeParams (baseFee : Option ℤ) (gasPrice : ℤ) (reported : Option ℤ) : FeeParams :=
  match baseFee with
  | none => .legacy gasPrice
  | some b =>
      let p := match reported with
        | none => oneGwei
        | some q => max q oneGwei
      .dynamic (b * 2 + p) p

/-- The fee rule as amended: the reported priority fee is kept whenever it is
strictly positive, and 1 gwei is substituted only when it is non-positive or
unreadable. -/
def amendedFeeParams (baseFee : Option ℤ) (gasPrice : ℤ) (reported : Option ℤ) : FeeParams :=
  match baseFee with
  | none => .legacy gasPrice
  | some b =>
      let p := match reported with
        | none => oneGwei
        | some q => if 0 < q then q else oneGwei
      .dynamic (b * 2 + p) p

/-! ## Gas-limit model (source lines 370-396 and 753-757) -/

/-- On successful simulation, `gas_limit = int(estimated_gas * 1.2) + 10000`
(source line 389).  Python's `int` truncates toward zero and for the gas
magnitudes involved the float product `estimated_gas * 1.2` lies in
`[⌊6g/5⌋, ⌊6g/5⌋ + 1)`, so the result is `6g/5` in natural division. -/
def bufferGasLimit (estimated : ℕ) : ℕ := estimated * 6 / 5 + 10000

/-- Gas limit chosen by `send_transaction` (draw / sell / approve / SBT-claim
calls): buffered simulation result, or the fixed `650000` fallback when
`estimate_gas` raises (source line 396).  `none` models a failed simulation. -/
def computeGasLimit (simulated : Option ℕ) : ℕ :=
  match simulated with
  | some g => bufferGasLimit g
  | none => 650000

/-- Gas limit chosen by `swap_rbtn_to_eth` (source lines 753-757): buffered
simulation result, or the quote's own `gasLimit` field with default `500000`
when `estimate_gas` raises. -/
def swapGasLimit (simulated : Option ℕ) (quoteGasLimit : Option ℕ) : ℕ :=
  match simulated with
  | some g => bufferGasLimit g
  | none => quoteGasLimit.getD 500000

/-- The gas-limit rule exactly as the claim words it: `ceil(simulated * 1.2)
+ 10000` on success, `650000` for draw/sell and `200000` for a swap on
failure.  Stated for comparison with `computeGasLimit` / `swapGasLimit`. -/
def claimGasLimit (simulated : Option ℕ) : ℕ :=
  match simulated with
  | some g => ⌈(g : ℚ) * (6 / 5)⌉₊ + 10000
  | none => 650000

/-- The claimed swap fallback: `200000` when simulation fails. -/
def claimSwapGasLimit (simulated : Option ℕ) : ℕ :=
  match simulated with
  | some g => ⌈(g : ℚ) * (6 / 5)⌉₊ + 10000
  | none => 200000

/-- The gas-limit rule as amended: `floor(simulated * 1.2) + 10000` on
success; on failure `650000` for draw/sell calls, while the swap falls back
to the quote-provided gas limit (`500000` when the quote has none). -/
def amendedGasLimit (simulated : Option ℕ) : ℕ :=
  match simulated with
  | some g => ⌊(g : ℚ) * (6 / 5)⌋₊ + 10000
  | none => 650000

/-- The amended swap fallback: quote-provided gas limit, default `500000`. -/
def amendedSwapGasLimit (simulated : Option ℕ) (quoteGasLimit : Option ℕ) : ℕ :=
  match simulated with
  | some g => ⌊(g : ℚ) * (6 / 5)⌋₊ + 10000
  | none => quoteGasLimit.getD 500000

/-! ## Batch liquidation (`sell_nfts_batch`, source lines 622-638)

`for i in range(0, len(token_ids), 50): batch = token_ids[i:i+50]` issues one
`sellItemBatch` transaction per slice. -/

/-- `batch_size = 50` (source line 624). -/
def batchSize : ℕ := 50

/-- The chunks of `token_ids` in order, one per issued `sellItemBatch`
transaction: slices `token_ids[i:i+50]` for `i = 0, 50, 100, ...`. -/
def chunkTokenIds (ids : List ℕ) : List (List ℕ) :=
  if h : ids = [] then []
  else ids.take batchSize :: chunkTokenIds (ids.drop batchSize)
termination_by ids.length
decreasing_by
  simp only [List.length_drop, batchSize]
  have hpos : 0 < ids.length := List.length_pos.mpr h
  omega

/-! ## Minted-event decoding (source lines 272-288 and 596-619)

A receipt's `logs` field is a list of raw logs; `process_log` either raises
(the log belongs to another event or contract, modelled `none`) or yields the
decoded `Minted` fields.  Only the three fields the source reads are kept
(`tokenId`, `owner`, `rarityIndex`); the remaining five event fields are
never accessed. -/

/-- A decoded `Minted` event (the fields read by the source). -/
structure MintedEvent where
  tokenId : ℕ
  owner : String
  rarityIndex : ℕ
deriving DecidableEq, Repr

/-- ASCII lowercasing of one character.  Addresses are `0x`-prefixed hex
strings, so Python's `str.lower()` on them is exactly ASCII lowercasing. -/
def lowerChar (c : Char) : Char :=
  if 'A' ≤ c ∧ c ≤ 'Z' then Char.ofNat (c.toNat + 32) else c

/-- The character list of `s.lower()`. -/
def lowerStr (s : String) : List Char := s.data.map lowerChar

/-- Case-insensitive address comparison:
`decoded["args"]["owner"].lower() == wallet_address.lower()`. -/
def addrMatches (a b : String) : Bool := lowerStr a == lowerStr b

/-- `get_minted_token_id` (source lines 272-288): first decodable `Minted`
log whose `owner` matches the wallet, returning its `tokenId`; undecodable
logs are skipped; `None` when no log matches. -/
def get_minted_token_id (logs : List (Option MintedEvent)) (wallet : String) : Option ℕ :=
  match logs with
  | [] => none
  | none :: rest => get_minted_token_id rest wallet
  | some ev :: rest =>
      if addrMatches ev.owner wallet then some ev.tokenId
      else get_minted_token_id rest wallet

/-- The log-scanning loop of `check_unique_minted` (source lines 605-613):
`True` as soon as a decodable `Minted` log matches the wallet with
`rarityIndex == RARITY_UNIQUE`; a matching log of another rarity, or an
undecodable log, falls through to the next log. -/
def uniqueInLogs (logs : List (Option MintedEvent)) (wallet : String) : Bool :=
  match logs with
  | [] => false
  | none :: rest => uniqueInLogs rest wallet
  | some ev :: rest =>
      if addrMatches ev.owner wallet && ev.rarityIndex == RARITY_UNIQUE then true
      else uniqueInLogs rest wallet

/-- `check_unique_minted` (source lines 596-619): scan the logs, and when the
scan finds nothing fall back to the `hasUniqueMinted(wallet)` view call.
`fallbackView = none` models the view call raising (RPC error), in which case
the `except` clause returns `False` (source lines 618-619). -/
def check_unique_minted (logs : List (Option MintedEvent)) (wallet : String)
    (fallbackView : Option Bool) : Bool :=
  if uniqueInLogs logs wallet then true
  else
    match fallbackView with
    | some b => b
    | none => false

/-- `True` exactly when no log of the receipt decodes to a `Minted` event
owned by the wallet (the hypothesis of the outcome-check fallback claims). -/
def noMatchingMinted (logs : List (Option MintedEvent)) (wallet : String) : Bool :=
  logs.all fun l =>
    match l with
    | none => true
    | some ev => !(addrMatches ev.owner wallet)

/-! ## Completion checks and the wallet entry guard
(`check_sbt_minted` lines 648-654, `process_wallet` lines 786-803) -/

/-- `check_sbt_minted` (source lines 648-654): `balanceOf(wallet) > 0`; a
raising balance query (`none`) yields `False`. -/
def check_sbt_minted (balanceQuery : Option ℕ) : Bool :=
  match balanceQuery with
  | some b => 0 < b
  | none => false

/-- The externally observable actions `process_wallet` can take.  All but
`markDbCompleted` (a local database write, source line 802) are
chain-mutating transactions. -/
inductive Action where
  | mintNoobTx
  | sellBatchTx
  | approveTx
  | drawOgTx
  | mintSbtTx
  | swapTx
  | markDbCompleted
deriving DecidableEq, Repr

/-- Chain-mutating actions: every transaction broadcast; the local completion
record write is not one. -/
def isChainMutating : Action → Bool
  | .markDbCompleted => false
  | _ => true

/-- Outcome of `process_wallet`'s entry checks. -/
inductive WalletStatus where
  | skippedDb
  | skippedChain
  | processed
deriving DecidableEq, Repr

/-- The entry of `process_wallet` (source lines 794-803): return immediately
when the database records completion; otherwise, when the SBT balance check
reports the credential held, write the completion record and return; only
otherwise run the main loop, whose emitted actions are the parameter
`loopActions`. -/
def processWalletEntry (dbCompleted : Bool) (sbtBalanceQuery : Option ℕ)
    (loopActions : List Action) : WalletStatus × List Action :=
  if dbCompleted then (.skippedDb, [])
  else if check_sbt_minted sbtBalanceQuery then (.skippedChain, [.markDbCompleted])
  else (.processed, loopActions)

/-! ## Permit signing (`create_permit_signature`, source lines 453-516) -/

/-- The fixed EIP-712 domain of the permit (source lines 473-478). -/
structure PermitDomain where
  name : String
  version : String
  chainId : ℕ
  verifyingContract : String
deriving DecidableEq, Repr

/-- The domain the source builds for every permit. -/
def permitDomain : PermitDomain :=
  { name := "RedButton Token"
    version := "1"
    chainId := CHAIN_ID
    verifyingContract := RBTN_TOKEN_ADDRESS }

/-- The typed message fields of the permit (source lines 480-486). -/
structure PermitMessage where
  owner : String
  spender : String
  value : ℕ
  nonce : ℕ
  deadline : ℕ
deriving DecidableEq, Repr

/-- Message construction in `create_permit_signature` (source lines 467-486):
the nonce is `token_contract.functions.nonces(owner).call()` — the token
contract's current nonce for the owner at build time, queried inside the
function on every call, never a cached value. -/
def create_permit_message (tokenNonces : String → ℕ) (owner spender : String)
    (amount deadline : ℕ) : PermitMessage :=
  { owner := owner
    spender := spender
    value := amount
    nonce := tokenNonces owner
    deadline := deadline }

/-- Effect of a draw consuming the permit: the token contract increments the
owner's permit nonce (the on-chain EIP-2612 behaviour the spec relies on when
it says the nonce "increments on every prior permit use"). -/
def consumePermit (tokenNonces : String → ℕ) (owner : String) : String → ℕ :=
  fun a => if a = owner then tokenNonces a + 1 else tokenNonces a

/-- The signature-shape validation of `create_permit_signature` (source lines
511-516): a produced signature whose byte length is not 65 raises
`ValueError` (modelled as `Except.error` carrying the offending length)
instead of being returned. -/
def validate_permit_signature (sig : List ℕ) : Except ℕ (List ℕ) :=
  if sig.length ≠ 65 then .error sig.length else .ok sig

/-! ## Accumulation loop (`process_wallet`, source lines 813-869) -/

/-- Observable outcome of one iteration of the NOOB-mint loop body:
the transaction may fail (no receipt or `status != 1`, lines 839-842), the
`Minted` event may not decode (lines 844-848), the `tokenInfo` rarity lookup
may raise (lines 863-866), or the step fully succeeds with a token id and its
rarity index (lines 850-862).  The first three are caught in the loop body
and `continue`; only the last mutates the accumulation state. -/
inductive MintOutcome where
  | txFailed
  | noTokenId
  | infoFailed (tokenId : ℕ)
  | minted (tokenId : ℕ) (rarityIndex : ℕ)
deriving DecidableEq, Repr

/-- The accumulation state: `total_value` (an integer sum of RBTN values,
source line 856) and `nft_ids` (source line 855). -/
structure AccumState where
  totalValue : ℕ
  nftIds : List ℕ
deriving DecidableEq, Repr

/-- One pass of the loop body: on a fully successful mint-and-decode step,
`nft_ids.append(token_id); total_value += RARITY_VALUES.get(rarity_index, 0)`
(source lines 853-856); every caught failure leaves the state unchanged. -/
def accumStep (s : AccumState) (o : MintOutcome) : AccumState :=
  match o with
  | .minted tid r => { totalValue := s.totalValue + RARITY_VALUES r, nftIds := s.nftIds ++ [tid] }
  | _ => s

/-- The `while total_value < needed_value` loop (source line 830), driven by
a finite stream of step outcomes.  `needed` is the float target
`needed_value`, modelled as the exact rational.  Returns `some` final state
when the loop condition fails (normal exit), `none` when the outcome stream
is exhausted while the condition still holds. -/
def accumLoop (needed : ℚ) : List MintOutcome → AccumState → Option AccumState
  | [], s => if (s.totalValue : ℚ) < needed then none else some s
  | o :: rest, s =>
      if (s.totalValue : ℚ) < needed then accumLoop needed rest (accumStep s o)
      else some s

/-- Decision taken before the loop (source lines 813-825). -/
inductive AccumPlan where
  | skip
  | accumulate (needed : ℚ)
deriving DecidableEq, Repr

/-- Target computation of `process_wallet` (source lines 817-825): with the
wallet's RBTN balance in wei, skip accumulation when
`balance >= Web3.to_wei(1300, "ether")`; otherwise accumulate with
`needed_value = 1300 - balance_in_ether` (the float value
`float(w3.from_wei(balance, "ether"))`, modelled as the exact rational). -/
def planAccumulation (balanceWei : ℕ) : AccumPlan :=
  if TARGET_VALUE_RBTN * weiPerEther ≤ balanceWei then .skip
  else .accumulate ((TARGET_VALUE_RBTN : ℚ) - (balanceWei : ℚ) / (weiPerEther : ℚ))

/-! ## Helper lemmas -/

/-- The buffered gas limit of the source, `estimated * 6 / 5` in natural
division, is the floor of the exact product `estimated * 1.2`. -/
theorem floor_six_fifths (g : ℕ) : ⌊(g : ℚ) * (6 / 5)⌋₊ = g * 6 / 5 := by
  have h : (g : ℚ) * (6 / 5) = ((g * 6 : ℕ) : ℚ) / ((5 : ℕ) : ℚ) := by
    push_cast
    ring
  rw [h, Nat.floor_div_nat, Nat.floor_natCast]

/-- Natural-division form of the ceiling of `n / 50`. -/
theorem ceil_div_fifty (n : ℕ) : ⌈(n : ℚ) / 50⌉₊ = (n + 49) / 50 := by
  rcases Nat.eq_zero_or_pos n with h | h
  · subst h
    norm_num
  · rw [Nat.ceil_eq_iff (by omega)]
    constructor
    · rw [lt_div_iff (by norm_num)]
      have hlt : ((n + 49) / 50 - 1) * 50 < n := by omega
      exact_mod_cast hlt
    · rw [div_le_iff (by norm_num)]
      have hle : n ≤ (n + 49) / 50 * 50 := by omega
      exact_mod_cast hle

/-- Positivity of the rarity table on its six defined indices. -/
theorem RARITY_VALUES_pos (r : ℕ) (hr : r ≤ 5) : 0 < RARITY_VALUES r := by
  interval_cases r <;> decide

/-- A normal exit of the accumulation loop carries an accumulated value that
has reached the target. -/
theorem accumLoop_target_reached (needed : ℚ) :
    ∀ (outs : List MintOutcome) (s s' : AccumState),
      accumLoop needed outs s = some s' → needed ≤ (s'.totalValue : ℚ) := by
  intro outs
  induction outs with
  | nil =>
      intro s s' h
      simp only [accumLoop] at h
      split at h
      · exact absurd h (by simp)
      · obtain rfl := Option.some.inj h
        linarith [not_lt.mp (by assumption)]
  | cons o rest ih =>
      intro s s' h
      simp only [accumLoop] at h
      split at h
      · exact ih _ _ h
      · obtain rfl := Option.some.inj h
        linarith [not_lt.mp (by assumption)]

/-- When no log decodes to a `Minted` event of the wallet, the log scan of
the outcome check finds nothing. -/
theorem uniqueInLogs_eq_false (logs : List (Option MintedEvent)) (wallet : String)
    (hnone : noMatchingMinted logs wallet = true) :
    uniqueInLogs logs wallet = false := by
  induction logs with
  | nil => rfl
  | cons l rest ih =>
      cases l with
      | none =>
          simp only [noMatchingMinted, List.all_cons, Bool.and_eq_true] at hnone
          exact ih (by simpa [noMatchingMinted] using hnone.2)
      | some ev =>
          simp only [noMatchingMinted, List.all_cons, Bool.and_eq_true] at hnone
          have hm : addrMatches ev.owner wallet = false := by
            simpa using hnone.1
          simp only [uniqueInLogs, hm, Bool.false_and, Bool.false_eq_true, if_false]
          exact ih (by simpa [noMatchingMinted] using hnone.2)

/-- The chunks of the liquidation loop concatenate back to the input ids. -/
theorem chunkTokenIds_flatten (ids : List ℕ) : (chunkTokenIds ids).flatten = ids := by
  induction ids using chunkTokenIds.induct with
  | case1 => simp [chunkTokenIds]
  | case2 ids h ih =>
      rw [chunkTokenIds, dif_neg h]
      simp [ih, List.take_append_drop]

/-- The liquidation loop issues exactly `(N + 49) / 50` chunks. -/
theorem chunkTokenIds_length (ids : List ℕ) :
    (chunkTokenIds ids).length = (ids.length + 49) / 50 := by
  induction ids using chunkTokenIds.induct with
  | case1 => simp [chunkTokenIds]
  | case2 ids h ih =>
      rw [chunkTokenIds, dif_neg h]
      have hpos : 0 < ids.length := List.length_pos.mpr h
      simp only [batchSize] at ih ⊢
      simp only [List.length_cons, ih, List.length_drop]
      omega

/-- Every chunk of the liquidation loop holds at most 50 ids. -/
theorem chunkTokenIds_le (ids : List ℕ) :
    ∀ c ∈ chunkTokenIds ids, c.length ≤ 50 := by
  induction ids using chunkTokenIds.induct with
  | case1 => simp [chunkTokenIds]
  | case2 ids h ih =>
      rw [chunkTokenIds, dif_neg h]
      intro c hc
      rcases List.mem_cons.mp hc with rfl | hmem
      · simpa [batchSize] using List.length_take_le batchSize ids
      · exact ih c hmem

/-! ## Claim theorems -/

/-- Claim C1: during the accumulation loop, every confirmed mint whose
`Minted` event decodes to a wallet-owned token and whose rarity lookup
succeeds increases the accumulated value by exactly `RARITY_VALUES r`
(strictly, since every defined rarity value is positive), appends the token
id to the tracked list, and a normal loop exit happens only with the
accumulated value at or above the needed target. -/
theorem accumulation_strict_increase_and_exit
    (s : AccumState) (tid r : ℕ) (hr : r ≤ 5)
    (needed : ℚ) (outs : List MintOutcome) (s' : AccumState)
    (hrun : accumLoop needed outs s = some s') :
    (accumStep s (.minted tid r)).totalValue = s.totalValue + RARITY_VALUES r ∧
    s.totalValue < (accumStep s (.minted tid r)).totalValue ∧
    (accumStep s (.minted tid r)).nftIds = s.nftIds ++ [tid] ∧
    needed ≤ (s'.totalValue : ℚ) := by
  refine ⟨rfl, ?_, rfl, accumLoop_target_reached needed outs s s' hrun⟩
  have hpos := RARITY_VALUES_pos r hr
  simp only [accumStep]
  omega

set_option maxRecDepth 4000 in
/-- Witness for C1: one rarity-0 mint from an empty state against target 15
adds exactly 15, appends the id, and the loop exits at 15. -/
theorem accumulation_strict_increase_and_exit_witness :
    (accumStep ⟨0, []⟩ (.minted 7 0)).totalValue = 0 + RARITY_VALUES 0 ∧
    (0 : ℕ) < (accumStep ⟨0, []⟩ (.minted 7 0)).totalValue ∧
    (accumStep ⟨0, []⟩ (.minted 7 0)).nftIds = [] ++ [7] ∧
    (15 : ℚ) ≤ (AccumState.totalValue ⟨15, [7]⟩ : ℚ) :=
  accumulation_strict_increase_and_exit ⟨0, []⟩ 7 0 (by decide) 15
    [.minted 7 0] ⟨15, [7]⟩ (by decide)

/-- Counterexample to C2: with base fee present and a chain-reported priority
fee of 0.5 gwei (positive but below 1 gwei), the code keeps 0.5 gwei while
the claimed rule `max(reported, 1 gwei)` would demand 1 gwei. -/
theorem fee_priority_floor_counterexample :
    computeFeeParams (some (10 * oneGwei)) 7 (some 500000000) ≠
      claimFeeParams (some (10 * oneGwei)) 7 (some 500000000) := by
  decide

/-- Claim C2 as amended: every transaction with a base-fee-exposing latest
block carries dynamic fees with the priority fee kept as reported whenever it
is strictly positive (1 gwei substituted only for a non-positive or
unreadable report) and `maxFeePerGas = 2 * baseFee + priorityFee`; without a
base fee the legacy gas price is carried; with base fee 10 gwei and reported
priority fee 0 the resulting `maxFeePerGas` is 21 gwei. -/
theorem amended_fee_model (baseFee : Option ℤ) (gasPrice : ℤ) (reported : Option ℤ) :
    computeFeeParams baseFee gasPrice reported = amendedFeeParams baseFee gasPrice reported ∧
    computeFeeParams (some (10 * oneGwei)) gasPrice (some 0) =
      FeeParams.dynamic (21 * oneGwei) oneGwei := by
  constructor
  · cases baseFee with
    | none => rfl
    | some b =>
        cases reported with
        | none => rfl
        | some q =>
            have hsel : (if q ≤ 0 then oneGwei else q) = (if 0 < q then q else oneGwei) := by
              split_ifs <;> omega
            simp only [computeFeeParams, amendedFeeParams, selectPriorityFee, hsel]
  · have h21 : (10 : ℤ) * oneGwei * 2 + oneGwei = 21 * oneGwei := by
      simp only [oneGwei]
      norm_num
    simp [computeFeeParams, selectPriorityFee, h21]

/-- Counterexample to C3: at a successful simulation of 101 gas the code's
`int(101 * 1.2) + 10000 = 10121` differs from the claimed
`ceil(101 * 1.2) + 10000 = 10122`; and the swap's fallback on a failed
simulation is the quote default 500000, not the claimed 200000. -/
theorem gas_limit_ceil_counterexample :
    computeGasLimit (some 101) ≠ claimGasLimit (some 101) ∧
    swapGasLimit none none ≠ claimSwapGasLimit none := by
  constructor
  · have hceil : ⌈((101 : ℕ) : ℚ) * (6 / 5)⌉₊ = 122 := by
      rw [Nat.ceil_eq_iff (by norm_num)]
      constructor <;> norm_num
    simp only [computeGasLimit, claimGasLimit, bufferGasLimit, hceil]
    decide
  · decide

/-- Claim C3 as amended: when gas simulation of the exact transaction
parameters succeeds the gas limit is `floor(simulated * 1.2) + 10000`; when
simulation fails the draw/sell/approve path falls back to the fixed 650000
while the swap falls back to the quote-provided gas limit (500000 when the
quote carries none). -/
theorem amended_gas_limit_model (simulated : Option ℕ) (quoteGasLimit : Option ℕ) :
    computeGasLimit simulated = amendedGasLimit simulated ∧
    swapGasLimit simulated quoteGasLimit = amendedSwapGasLimit simulated quoteGasLimit := by
  cases simulated with
  | none => exact ⟨rfl, rfl⟩
  | some g =>
      constructor <;>
        simp only [computeGasLimit, amendedGasLimit, swapGasLimit, amendedSwapGasLimit,
          bufferGasLimit, floor_six_fifths]

/-- Claim C4: for every list of accumulated token ids the batch liquidator
issues exactly `ceil(N / 50)` sell chunks, each holding at most 50 ids, and
the concatenation of the chunks is the original list. -/
theorem batch_chunking_exact (ids : List ℕ) :
    (chunkTokenIds ids).length = ⌈(ids.length : ℚ) / 50⌉₊ ∧
    ((chunkTokenIds ids).all fun c => c.length ≤ 50) = true ∧
    (chunkTokenIds ids).flatten = ids := by
  refine ⟨?_, ?_, chunkTokenIds_flatten ids⟩
  · rw [chunkTokenIds_length, ceil_div_fifty]
  · rw [List.all_eq_true]
    intro c hc
    simpa using chunkTokenIds_le ids c hc

/-- Claim C5: for a draw receipt none of whose logs decodes to a `Minted`
event owned by the wallet, the outcome check returns exactly the result of
the `hasUniqueMinted` view query instead of concluding failure. -/
theorem outcome_check_fallback_consulted
    (logs : List (Option MintedEvent)) (wallet : String) (b : Bool)
    (hnone : noMatchingMinted logs wallet = true) :
    check_unique_minted logs wallet (some b) = b := by
  simp [check_unique_minted, uniqueInLogs_eq_false logs wallet hnone]

/-- Witness for C5: a receipt with one undecodable log and one `Minted` log
of a different wallet defers to the view query, whose `true` is returned. -/
theorem outcome_check_fallback_consulted_witness :
    check_unique_minted [none, some ⟨5, "0xDEAD", 2⟩] "0xbeef" (some true) = true :=
  outcome_check_fallback_consulted [none, some ⟨5, "0xDEAD", 2⟩] "0xbeef" true (by decide)

/-- Claim C6: a wallet whose external completion record or on-chain SBT
balance indicates completion is skipped, and the skip path issues no
chain-mutating call (only, at most, the local completion-record write). -/
theorem completed_wallet_no_mutating_calls
    (dbCompleted : Bool) (sbtBalanceQuery : Option ℕ) (loopActions : List Action)
    (h : dbCompleted = true ∨ check_sbt_minted sbtBalanceQuery = true) :
    (processWalletEntry dbCompleted sbtBalanceQuery loopActions).1 ≠ .processed ∧
    ((processWalletEntry dbCompleted sbtBalanceQuery loopActions).2.all
      fun a => !(isChainMutating a)) = true := by
  rcases h with h | h
  · subst h
    exact ⟨by simp [processWalletEntry], by simp [processWalletEntry]⟩
  · by_cases hdb : dbCompleted <;>
      simp [processWalletEntry, hdb, h, isChainMutating]

/-- Witness for C6: a wallet not in the completion record but holding the SBT
(balance 1) is skipped with only the database write emitted. -/
theorem completed_wallet_no_mutating_calls_witness :
    (processWalletEntry false (some 1) [.drawOgTx]).1 ≠ .processed ∧
    ((processWalletEntry false (some 1) [.drawOgTx]).2.all
      fun a => !(isChainMutating a)) = true :=
  completed_wallet_no_mutating_calls false (some 1) [.drawOgTx] (Or.inr (by decide))

/-- Claim C7: a permit message always carries the token contract's current
nonce for the owner at build time (queried inside the builder, never cached),
so the message built after the previous permit is consumed carries a strictly
larger nonce. -/
theorem permit_nonces_strictly_increase
    (tokenNonces : String → ℕ) (owner spender : String) (v1 d1 v2 d2 : ℕ) :
    (create_permit_message tokenNonces owner spender v1 d1).nonce = tokenNonces owner ∧
    (create_permit_message (consumePermit tokenNonces owner) owner spender v2 d2).nonce
      = tokenNonces owner + 1 ∧
    (create_permit_message tokenNonces owner spender v1 d1).nonce <
      (create_permit_message (consumePermit tokenNonces owner) owner spender v2 d2).nonce := by
  refine ⟨rfl, ?_, ?_⟩ <;> simp [create_permit_message, consumePermit]

/-- Claim C8: the permit signer returns a signature only when it is exactly
65 bytes; any other produced length raises the fatal length error instead of
being returned. -/
theorem permit_signature_length_validation (sig : List ℕ) :
    (∀ s, validate_permit_signature sig = .ok s → s.length = 65) ∧
    (sig.length ≠ 65 → validate_permit_signature sig = .error sig.length) := by
  constructor
  · intro s hs
    by_cases h : sig.length = 65
    · have hok : validate_permit_signature sig = .ok sig := by
        simp [validate_permit_signature, h]
      rw [hok] at hs
      obtain rfl := Except.ok.inj hs
      exact h
    · simp [validate_permit_signature, h] at hs
  · intro h
    simp [validate_permit_signature, h]

/-- Witness for C8: a 64-byte signature is rejected with the length error. -/
theorem permit_signature_length_validation_witness :
    validate_permit_signature (List.replicate 64 0) =
      .error (List.replicate 64 0).length :=
  (permit_signature_length_validation (List.replicate 64 0)).2 (by decide)

/-- Claim C9: accumulation is skipped exactly when the wallet's RBTN balance
already meets the 1300 RBTN target, and otherwise the accumulation target is
the fixed 1300 RBTN minus the current balance (a positive amount). -/
theorem accumulation_target_formula (balanceWei : ℕ) :
    (planAccumulation balanceWei = .skip ↔
      TARGET_VALUE_RBTN * weiPerEther ≤ balanceWei) ∧
    (balanceWei < TARGET_VALUE_RBTN * weiPerEther →
      planAccumulation balanceWei =
        .accumulate ((TARGET_VALUE_RBTN : ℚ) - (balanceWei : ℚ) / (weiPerEther : ℚ)) ∧
      0 < (TARGET_VALUE_RBTN : ℚ) - (balanceWei : ℚ) / (weiPerEther : ℚ)) := by
  constructor
  · constructor
    · intro hplan
      by_contra hnot
      simp [planAccumulation, hnot] at hplan
    · intro hle
      simp [planAccumulation, hle]
  · intro hlt
    have hnot : ¬ TARGET_VALUE_RBTN * weiPerEther ≤ balanceWei := by omega
    refine ⟨by simp [planAccumulation, hnot], ?_⟩
    have hW : (0 : ℚ) < (weiPerEther : ℚ) := by
      simp only [weiPerEther]
      norm_num
    rw [sub_pos, div_lt_iff hW]
    have hcast : (balanceWei : ℚ) < (TARGET_VALUE_RBTN : ℚ) * (weiPerEther : ℚ) := by
      exact_mod_cast hlt
    linarith

/-- Witness for C9: a wallet with zero RBTN balance accumulates toward the
full positive target `1300 - 0`. -/
theorem accumulation_target_formula_witness :
    planAccumulation 0 =
      .accumulate ((TARGET_VALUE_RBTN : ℚ) - ((0 : ℕ) : ℚ) / (weiPerEther : ℚ)) ∧
    0 < (TARGET_VALUE_RBTN : ℚ) - ((0 : ℕ) : ℚ) / (weiPerEther : ℚ) :=
  (accumulation_target_formula 0).2 (by decide)

/-- Claim C10: when no `Minted` event of the wallet decodes from the draw
receipt and the `hasUniqueMinted` fallback query itself raises, the outcome
check returns `false` — indistinguishable from a genuinely missed jackpot. -/
theorem fallback_error_reports_false
    (logs : List (Option MintedEvent)) (wallet : String)
    (hnone : noMatchingMinted logs wallet = true) :
    check_unique_minted logs wallet none = false := by
  simp [check_unique_minted, uniqueInLogs_eq_false logs wallet hnone]

/-- Witness for C10: a receipt whose single `Minted` log belongs to another
wallet combined with a raising fallback query yields `false`. -/
theorem fallback_error_reports_false_witness :
    check_unique_minted [some ⟨9, "0xCAFE", 1⟩] "0xbabe" none = false :=
  fallback_error_reports_false [some ⟨9, "0xCAFE", 1⟩] "0xbabe" (by decide)

end RedButton
